import Mathlib

/-!
Shallow embedding of the simulation core of the zombie survival game
(`game.ts`, `entities.ts`, `utils.ts`, `constants.ts`).

Modelling conventions:
* JavaScript numbers are modelled as rationals (`ℚ`); the integer-valued
  `shooterCount` and gate values are modelled as `ℤ`.
* The trigonometric functions `Math.cos`, `Math.sin`, `Math.atan2` and the
  constant `Math.PI` have no computable rational counterpart; they are passed
  as explicit parameters (`cosF`, `sinF`, `atan2F`, `piF`).  No claim depends
  on their actual values.
* `distance(...) < r` comparisons (from `utils.ts`, via `Math.sqrt`) are
  modelled by the equivalent squared comparison `dx*dx + dy*dy < r*r`; the two
  agree whenever `r ≥ 0` (`Real.sqrt s < r ↔ s < r^2` for `0 ≤ s`, `0 ≤ r`),
  and every radius-like quantity in the game is positive.
* Randomness (`Math.random()` draws) is modelled by passing the drawn value
  as an explicit argument.
* In-place mutation of the entity arrays is modelled by explicit state
  passing; the reverse-indexed `for` loops with `splice` of `game.ts` are
  modelled by recursions that process the tail (the higher indices) first,
  matching the iteration order of the source.
* Purely visual state (blood particles, muzzle flashes, explosion animation
  progress) carries no gameplay information; explosion creation is tracked by
  a counter `explosions` so that "the explosion is triggered exactly once"
  is expressible, and blood particles / muzzle flashes are omitted.
-/

namespace ZombieGame

/-! ### Constants (constants.ts) -/

def CANVAS_WIDTH : ℚ := 800
def CANVAS_HEIGHT : ℚ := 800
def PLAYER_WIDTH : ℚ := 40
def PLAYER_HEIGHT : ℚ := 40
def PLAYER_SPEED : ℚ := 4
def PLAYER_MAX_HEALTH : ℚ := 100
def PLAYER_SHOOT_INTERVAL : ℚ := 150
def PLAYER_INVULNERABLE_TIME : ℚ := 1000
def BULLET_WIDTH : ℚ := 6
def BULLET_HEIGHT : ℚ := 12
def BULLET_SPEED : ℚ := 10
def BULLET_DAMAGE : ℚ := 20
def BULLET_LIFETIME : ℚ := 2000
def BASE_ZOMBIES_PER_WAVE : ℕ := 10
def WAVE_ZOMBIE_INCREASE : ℕ := 5
def WAVE_DELAY : ℚ := 5000
def ZOMBIE_SPAWN_INTERVAL : ℚ := 800
def INITIAL_SHOOTER_COUNT : ℤ := 1

/-! ### Geometry utilities (utils.ts) -/

/-- Squared Euclidean distance; `distance(x1,y1,x2,y2)` in `utils.ts` is its
square root.  Comparisons `distance < r` are modelled squared (see header). -/
def sqDist (x1 y1 x2 y2 : ℚ) : ℚ :=
  (x2 - x1) * (x2 - x1) + (y2 - y1) * (y2 - y1)

/-- `checkRectCollision` from utils.ts (axis-aligned rectangle overlap). -/
def checkRectCollision (ax ay aw ah bx bY bw bh : ℚ) : Bool :=
  decide (ax < bx + bw) && decide (ax + aw > bx) &&
  decide (ay < bY + bh) && decide (ay + ah > bY)

/-- `checkRectCircleCollision` from utils.ts: clamp the circle centre to the
rectangle and compare the distance to the radius (squared, see header). -/
def checkRectCircleCollision (rx ry rw rh circleX circleY radius : ℚ) : Bool :=
  let closestX := max rx (min circleX (rx + rw))
  let closestY := max ry (min circleY (ry + rh))
  decide (sqDist circleX circleY closestX closestY < radius * radius)

/-- `checkCircleCollision` from utils.ts: distance of the centres below the
sum of the radii (squared, see header). -/
def checkCircleCollision (x1 y1 r1 x2 y2 r2 : ℚ) : Bool :=
  decide (sqDist x1 y1 x2 y2 < (r1 + r2) * (r1 + r2))

/-- JavaScript `a || d` for an optional numeric field: `undefined` and `0`
are falsy and give the default. -/
def jsOr (o : Option ℚ) (d : ℚ) : ℚ :=
  match o with
  | some r => if r = 0 then d else r
  | none => d

/-! ### Data model (types.ts) -/

inductive ZombieType where
  | standard
  | runner
  | tank
  | spitter
  | exploder
deriving DecidableEq, Repr, Inhabited

inductive GateType where
  | add
  | multiply
deriving DecidableEq, Repr, Inhabited

structure Player where
  x : ℚ
  y : ℚ
  width : ℚ
  height : ℚ
  health : ℚ
  maxHealth : ℚ
  speed : ℚ
  velocityX : ℚ
  velocityY : ℚ
  rotation : ℚ
  isShooting : Bool
  lastShootTime : ℚ
  shootInterval : ℚ
  active : Bool
  damageFlashTime : ℚ
  invulnerableTime : ℚ
  shooterCount : ℤ
  currentLane : ℕ
deriving DecidableEq, Repr

structure Bullet where
  x : ℚ
  y : ℚ
  width : ℚ
  height : ℚ
  velocityX : ℚ
  velocityY : ℚ
  damage : ℚ
  lifetime : ℚ
  createdAt : ℚ
  active : Bool
deriving DecidableEq, Repr

/-- Zombie record (types.ts); the visual-only `bloodParticles` list is
omitted.  `deathTime`, `spitCooldown`, `lastSpitTime`, `explosionRadius` are
optional exactly as in the source. -/
structure Zombie where
  x : ℚ
  y : ℚ
  width : ℚ
  height : ℚ
  type : ZombieType
  health : ℚ
  maxHealth : ℚ
  speed : ℚ
  damage : ℚ
  radius : ℚ
  velocityX : ℚ
  velocityY : ℚ
  lastAttackTime : ℚ
  attackCooldown : ℚ
  active : Bool
  spitCooldown : Option ℚ := none
  lastSpitTime : Option ℚ := none
  explosionRadius : Option ℚ := none
  deathTime : Option ℚ := none
deriving DecidableEq, Repr

instance : Inhabited Zombie :=
  ⟨{ x := 0, y := 0, width := 0, height := 0, type := ZombieType.standard,
     health := 0, maxHealth := 0, speed := 0, damage := 0, radius := 0,
     velocityX := 0, velocityY := 0, lastAttackTime := 0, attackCooldown := 0,
     active := true }⟩

structure Gate where
  x : ℚ
  y : ℚ
  width : ℚ
  height : ℚ
  lane : ℕ
  type : GateType
  value : ℤ
  active : Bool
  passed : Bool
deriving DecidableEq, Repr

structure GameState where
  isPlaying : Bool
  isPaused : Bool
  currentWave : ℕ
  zombiesKilled : ℕ
  zombiesInWave : ℕ
  zombiesSpawned : ℕ
  waveStartTime : ℚ
  waveActive : Bool
  explorationMode : Bool
  currentLevel : ℕ
deriving DecidableEq, Repr

/-! ### Entity factory (entities.ts) -/

/-- `createBullet` from entities.ts.  `cosF`/`sinF` stand for `Math.cos` /
`Math.sin` (see header). -/
def createBullet (cosF sinF : ℚ → ℚ) (x y rotation currentTime : ℚ) : Bullet :=
  { x := x
    y := y
    width := BULLET_WIDTH
    height := BULLET_HEIGHT
    velocityX := cosF rotation * BULLET_SPEED
    velocityY := sinF rotation * BULLET_SPEED
    damage := BULLET_DAMAGE
    lifetime := BULLET_LIFETIME
    createdAt := currentTime
    active := true }

/-- `damageZombie` from entities.ts: subtract the damage; on reaching `≤ 0`
clamp health to `0`, record the death time, and report death.  `now` stands
for the `Date.now()` read in the source. -/
def damageZombie (zombie : Zombie) (damage : ℚ) (now : ℚ) : Zombie × Bool :=
  let h := zombie.health - damage
  if h ≤ 0 then
    ({ zombie with health := 0, deathTime := some now }, true)
  else
    ({ zombie with health := h }, false)

/-- `updateZombieAI` from entities.ts: zero horizontal velocity, downward
velocity from the per-type speed multiplier, then integrate position. -/
def updateZombieAI (zombie : Zombie) : Zombie :=
  let z1 := { zombie with velocityX := 0, velocityY := zombie.speed }
  let z2 :=
    if z1.type = ZombieType.spitter then { z1 with velocityY := z1.speed * (7/10) }
    else if z1.type = ZombieType.exploder then { z1 with velocityY := z1.speed * (13/10) }
    else if z1.type = ZombieType.runner then { z1 with velocityY := z1.speed * (12/10) }
    else z1
  { z2 with x := z2.x + z2.velocityX, y := z2.y + z2.velocityY }

/-! ### Player damage, waves, respawn (game.ts) -/

/-- `Game.damagePlayer`: no-op while invulnerable; otherwise subtract the
damage (no lower clamp), set the damage-flash and invulnerability timers,
and flag death when health drops to `≤ 0`.  The second component models the
`isDead` flag of the `Game` object. -/
def damagePlayer (p : Player) (isDead : Bool) (damage : ℚ) : Player × Bool :=
  if 0 < p.invulnerableTime then (p, isDead)
  else
    let p' := { p with health := p.health - damage,
                       damageFlashTime := 200,
                       invulnerableTime := PLAYER_INVULNERABLE_TIME }
    if p'.health ≤ 0 then (p', true) else (p', isDead)

/-- `Game.completeWave`: deactivate the wave, stamp the wave timer, enter
exploration mode, and heal the player by 20 capped at `maxHealth`. -/
def completeWave (gs : GameState) (p : Player) (currentTime : ℚ) : GameState × Player :=
  ({ gs with waveActive := false, waveStartTime := currentTime, explorationMode := true },
   { p with health := min (p.health + 20) p.maxHealth })

/-- `Game.startNextWave`. -/
def startNextWave (gs : GameState) (currentTime : ℚ) : GameState :=
  let wave' := gs.currentWave + 1
  { gs with currentWave := wave',
            zombiesInWave := BASE_ZOMBIES_PER_WAVE + (wave' - 1) * WAVE_ZOMBIE_INCREASE,
            zombiesSpawned := 0,
            zombiesKilled := 0,
            waveActive := true,
            explorationMode := false,
            waveStartTime := currentTime }

/-- `Game.updateWaveSystem`: complete the wave when active, the spawn quota
is reached and no zombie is alive; start the next wave when inactive and the
delay has elapsed. -/
def updateWaveSystem (gs : GameState) (p : Player) (zombies : List Zombie)
    (currentTime : ℚ) : GameState × Player :=
  let r1 :=
    if gs.waveActive && decide (gs.zombiesInWave ≤ gs.zombiesSpawned) &&
        decide (zombies.length = 0) then
      completeWave gs p currentTime
    else (gs, p)
  if !r1.1.waveActive && decide (WAVE_DELAY < currentTime - r1.1.waveStartTime) then
    (startNextWave r1.1 currentTime, r1.2)
  else r1

/-- `Game.updateZombieSpawning`: while the wave is active and below quota,
spawn one zombie per elapsed interval.  The randomly created zombie is passed
in as `newZombie` (randomness is an explicit argument, see header). -/
def updateZombieSpawning (gs : GameState) (zombies : List Zombie)
    (currentTime lastZombieSpawnTime : ℚ) (newZombie : Zombie) :
    GameState × List Zombie × ℚ :=
  if !gs.waveActive then (gs, zombies, lastZombieSpawnTime)
  else if decide (gs.zombiesSpawned < gs.zombiesInWave) &&
      decide (ZOMBIE_SPAWN_INTERVAL < currentTime - lastZombieSpawnTime) then
    ({ gs with zombiesSpawned := gs.zombiesSpawned + 1 },
     zombies ++ [newZombie], currentTime)
  else (gs, zombies, lastZombieSpawnTime)

/-- `Game.respawnPlayer`: reset position, restore full health, grant 2s of
invulnerability, clear zombies and bullets, reset the wave spawn counter. -/
def respawnPlayer (p : Player) (gs : GameState) :
    Player × Bool × List Zombie × List Bullet × GameState :=
  ({ p with x := CANVAS_WIDTH / 2 - p.width / 2,
            y := CANVAS_HEIGHT - p.height - 20,
            health := p.maxHealth,
            invulnerableTime := 2000 },
   false, [], [],
   { gs with zombiesSpawned := 0, waveActive := true })

/-! ### Weighted random type selection (utils.ts) -/

/-- Loop body of `weightedRandomZombieType`: subtract each weight in order,
returning the type at which the running remainder first drops to `≤ 0`. -/
def weightedLoop (random : ℚ) : List (String × ℚ) → Option String
  | [] => none
  | (t, w) :: rest =>
    if random - w ≤ 0 then some t else weightedLoop (random - w) rest

/-- `weightedRandomZombieType` from utils.ts.  The weight table is the list
of `Object.entries(weights)` in enumeration order, and the uniform draw
`Math.random() * totalWeight` is passed in as `random` (see header).  The
fallback `Object.keys(weights)[0]` is the first enumerated type. -/
def weightedRandomZombieType (weights : List (String × ℚ)) (random : ℚ) : String :=
  match weightedLoop random weights with
  | some t => t
  | none => (weights.map Prod.fst).headD ""

/-- Total weight, as summed by `weightedRandomZombieType`. -/
def totalWeight (weights : List (String × ℚ)) : ℚ :=
  (weights.map Prod.snd).sum

/-- Cumulative weight of the first `k` entries. -/
def cumWeight (weights : List (String × ℚ)) (k : ℕ) : ℚ :=
  ((weights.take k).map Prod.snd).sum

/-! ### Gates (game.ts) -/

/-- Body of `Game.checkGateCollisions` for one gate: skip passed or inactive
gates; on player overlap mark the gate passed, apply the additive or
multiplicative effect to `shooterCount`, and cap it at 50. -/
def gateStep (p : Player) (g : Gate) : Player × Gate :=
  if g.passed || !g.active then (p, g)
  else if checkRectCollision p.x p.y p.width p.height g.x g.y g.width g.height then
    let g' := { g with passed := true }
    let c :=
      match g.type with
      | GateType.add => p.shooterCount + g.value
      | GateType.multiply => p.shooterCount * g.value
    ({ p with shooterCount := min c 50 }, g')
  else (p, g)

/-- `Game.checkGateCollisions`: fold `gateStep` over the gate list in order. -/
def checkGateCollisions (p : Player) : List Gate → Player × List Gate
  | [] => (p, [])
  | g :: rest =>
    let r1 := gateStep p g
    let r2 := checkGateCollisions r1.1 rest
    (r2.1, r1.2 :: r2.2)

/-- Validity of a spawned gate value (`Game.updateGateSpawning`): additive
gates carry +1..+3, multiplicative gates carry x2..x3. -/
def validGateValue (g : Gate) : Prop :=
  (g.type = GateType.add → 1 ≤ g.value ∧ g.value ≤ 3) ∧
  (g.type = GateType.multiply → 2 ≤ g.value ∧ g.value ≤ 3)

instance (g : Gate) : Decidable (validGateValue g) := by
  unfold validGateValue; infer_instance

/-! ### Shooting (game.ts) -/

/-- `Game.shootBullet`: fire `min shooterCount 10` bullets fanned over a
22.5 degree spread, appending them to the bullet list.  `piF` stands for
`Math.PI` (see header); muzzle flashes and the sound effect are visual /
audio only and omitted. -/
def shootBullet (cosF sinF : ℚ → ℚ) (piF : ℚ) (p : Player) (bullets : List Bullet)
    (currentTime : ℚ) : List Bullet :=
  let playerCenterX := p.x + p.width / 2
  let playerCenterY := p.y + p.height / 2
  let spreadAngle := piF / 8
  let bulletsToShoot : ℤ := min p.shooterCount 10
  bullets ++ (List.range bulletsToShoot.toNat).map (fun (i : ℕ) =>
    let offset := (((i : ℚ) - ((bulletsToShoot : ℚ) - 1) / 2) * spreadAngle) /
      max 1 ((bulletsToShoot : ℚ) - 1)
    let rotation := p.rotation + offset
    let gunLength : ℚ := 25
    let gunX := playerCenterX + cosF rotation * gunLength
    let gunY := playerCenterY + sinF rotation * gunLength
    createBullet cosF sinF gunX gunY rotation currentTime)

/-! ### Exploder deaths and splash damage (game.ts) -/

structure ExplodeResult where
  player : Player
  isDead : Bool
  zombies : List Zombie
  explosions : ℕ
deriving DecidableEq, Repr

/-- Splash loop of `Game.handleExploderDeath`: walk the zombie list with its
index `j`, skip the exploding zombie itself (reference equality in the
source, position `selfIdx` here), and apply `damageZombie _ 50` to every
other zombie within the explosion circle.  The returned `died` flag of
`damageZombie` is discarded, exactly as in the source. -/
def explodeOthers (zx zy explosionRadius now : ℚ) (selfIdx : ℕ) :
    ℕ → List Zombie → List Zombie
  | _, [] => []
  | j, oz :: rest =>
    (if j = selfIdx then oz
     else if checkCircleCollision zx zy explosionRadius oz.x oz.y oz.radius then
       (damageZombie oz 50 now).1
     else oz) :: explodeOthers zx zy explosionRadius now selfIdx (j + 1) rest

/-- `Game.handleExploderDeath`: create one explosion effect, damage the
player when the player's half-width circle around its centre meets the
explosion circle, then splash-damage the other zombies. -/
def handleExploderDeath (z : Zombie) (selfIdx : ℕ) (p : Player) (isDead : Bool)
    (zombies : List Zombie) (explosions : ℕ) (now : ℚ) : ExplodeResult :=
  let explosionRadius := jsOr z.explosionRadius 100
  let explosions' := explosions + 1
  let playerCenterX := p.x + p.width / 2
  let playerCenterY := p.y + p.height / 2
  let pr :=
    if checkCircleCollision z.x z.y explosionRadius playerCenterX playerCenterY
        (p.width / 2) then
      damagePlayer p isDead z.damage
    else (p, isDead)
  { player := pr.1, isDead := pr.2,
    zombies := explodeOthers z.x z.y explosionRadius now selfIdx 0 zombies,
    explosions := explosions' }

/-- `Game.handleZombieDeath`: exploders explode; the extra blood particles
are visual only and omitted. -/
def handleZombieDeath (z : Zombie) (selfIdx : ℕ) (p : Player) (isDead : Bool)
    (zombies : List Zombie) (explosions : ℕ) (now : ℚ) : ExplodeResult :=
  if z.type = ZombieType.exploder then
    handleExploderDeath z selfIdx p isDead zombies explosions now
  else
    { player := p, isDead := isDead, zombies := zombies, explosions := explosions }

/-! ### Bullet vs zombie collisions (game.ts, checkCollisions first loop) -/

/-- Index of the first zombie hit by the bullet in the source's iteration
order (the inner `for` loop runs from the highest index downward, so this is
the largest colliding index). -/
def lastCollidingIdx (b : Bullet) : List Zombie → Option ℕ
  | [] => none
  | z :: rest =>
    match lastCollidingIdx b rest with
    | some j => some (j + 1)
    | none =>
      if checkRectCircleCollision b.x b.y b.width b.height z.x z.y z.radius then
        some 0
      else none

structure HitResult where
  bulletHit : Bool
  player : Player
  isDead : Bool
  zombies : List Zombie
  zombiesKilled : ℕ
  explosions : ℕ
deriving DecidableEq, Repr

/-- One bullet against the zombie list: find the first zombie hit in
iteration order, damage it, and on death run its death handling (the zombie
is still in the list at that point, as in the source), remove it and bump
the kill counter.  Returns whether the bullet hit. -/
def bulletHitZombies (now : ℚ) (b : Bullet) (p : Player) (isDead : Bool)
    (zombies : List Zombie) (zombiesKilled explosions : ℕ) : HitResult :=
  match lastCollidingIdx b zombies with
  | none =>
    { bulletHit := false, player := p, isDead := isDead, zombies := zombies,
      zombiesKilled := zombiesKilled, explosions := explosions }
  | some j =>
    let z := zombies.getD j default
    let dz := damageZombie z b.damage now
    let zombies1 := zombies.set j dz.1
    if dz.2 then
      let er := handleZombieDeath dz.1 j p isDead zombies1 explosions now
      { bulletHit := true, player := er.player, isDead := er.isDead,
        zombies := er.zombies.eraseIdx j, zombiesKilled := zombiesKilled + 1,
        explosions := er.explosions }
    else
      { bulletHit := true, player := p, isDead := isDead, zombies := zombies1,
        zombiesKilled := zombiesKilled, explosions := explosions }

structure CollisionsResult where
  bullets : List Bullet
  player : Player
  isDead : Bool
  zombies : List Zombie
  zombiesKilled : ℕ
  explosions : ℕ
deriving DecidableEq, Repr

/-- Outer bullet loop of `Game.checkCollisions`: the source iterates bullets
from the highest index downward, so the tail of the list is processed first;
a bullet that hit is removed from the list. -/
def bulletsVsZombies (now : ℚ) : List Bullet → Player → Bool → List Zombie →
    ℕ → ℕ → CollisionsResult
  | [], p, isDead, zombies, zombiesKilled, explosions =>
    { bullets := [], player := p, isDead := isDead, zombies := zombies,
      zombiesKilled := zombiesKilled, explosions := explosions }
  | b :: rest, p, isDead, zombies, zombiesKilled, explosions =>
    let r := bulletsVsZombies now rest p isDead zombies zombiesKilled explosions
    let h := bulletHitZombies now b r.player r.isDead r.zombies r.zombiesKilled r.explosions
    { bullets := if h.bulletHit then r.bullets else b :: r.bullets,
      player := h.player, isDead := h.isDead, zombies := h.zombies,
      zombiesKilled := h.zombiesKilled, explosions := h.explosions }

/-! ### Zombie vs player collisions (game.ts, checkCollisions second loop) -/

theorem length_explodeOthers (zx zy er now : ℚ) (selfIdx : ℕ) :
    ∀ (j : ℕ) (zs : List Zombie),
      (explodeOthers zx zy er now selfIdx j zs).length = zs.length := by
  intro j zs
  induction zs generalizing j with
  | nil => rfl
  | cons z rest ih => simp [explodeOthers, ih]

theorem length_handleExploderDeath (z : Zombie) (selfIdx : ℕ) (p : Player)
    (isDead : Bool) (zombies : List Zombie) (explosions : ℕ) (now : ℚ) :
    (handleExploderDeath z selfIdx p isDead zombies explosions now).zombies.length =
      zombies.length := by
  simp [handleExploderDeath, length_explodeOthers]

/-- Zombie-vs-player loop of `Game.checkCollisions` (entered only while the
player is not invulnerable): a `for..of` traversal with iterator index `k`.
For each overlapping zombie whose attack cooldown has elapsed, damage the
player and stamp its attack time; an exploder additionally explodes and is
removed from the list (the removal shifts the remaining elements left one
place under the live iterator, exactly as a JavaScript array iterator
observes a `splice` of the current element).  `fuel` is only the structural
recursion measure: every step raises `k` and never lengthens the list, so
the loop runs at most `zombies.length - k` more iterations and any
`fuel ≥ zombies.length - k` (the caller passes `zombies.length` with
`k = 0`) behaves identically — see `zombiePlayerLoop_fuel_irrelevant`. -/
def zombiePlayerLoop (now : ℚ) : (fuel k : ℕ) → Player → Bool → List Zombie →
    ℕ → Player × Bool × List Zombie × ℕ
  | 0, _, p, isDead, zombies, explosions => (p, isDead, zombies, explosions)
  | fuel + 1, k, p, isDead, zombies, explosions =>
    if h : k < zombies.length then
      let z := zombies.get ⟨k, h⟩
      if checkRectCircleCollision p.x p.y p.width p.height z.x z.y z.radius &&
          decide (z.attackCooldown < now - z.lastAttackTime) then
        let pr := damagePlayer p isDead z.damage
        let z' := { z with lastAttackTime := now }
        let zombies1 := zombies.set k z'
        if z.type = ZombieType.exploder then
          let er := handleExploderDeath z' k pr.1 pr.2 zombies1 explosions now
          zombiePlayerLoop now fuel (k + 1) er.player er.isDead
            (er.zombies.eraseIdx k) er.explosions
        else
          zombiePlayerLoop now fuel (k + 1) pr.1 pr.2 zombies1 explosions
      else
        zombiePlayerLoop now fuel (k + 1) p isDead zombies explosions
    else (p, isDead, zombies, explosions)

/-- The fuel of `zombiePlayerLoop` is irrelevant as soon as it covers the
remaining `zombies.length - k` iterations, so passing `zombies.length` at
`k = 0` computes the untruncated loop. -/
theorem zombiePlayerLoop_fuel_irrelevant (now : ℚ) :
    ∀ (f1 f2 k : ℕ) (p : Player) (isDead : Bool) (zs : List Zombie) (e : ℕ),
      zs.length - k ≤ f1 → zs.length - k ≤ f2 →
      zombiePlayerLoop now f1 k p isDead zs e =
        zombiePlayerLoop now f2 k p isDead zs e := by
  intro f1
  induction f1 with
  | zero =>
      intro f2 k p isDead zs e h1 h2
      cases f2 with
      | zero => rfl
      | succ f2' =>
          show (p, isDead, zs, e) = _
          rw [zombiePlayerLoop, dif_neg (by omega)]
  | succ f1' ih =>
      intro f2 k p isDead zs e h1 h2
      cases f2 with
      | zero =>
          show _ = (p, isDead, zs, e)
          rw [zombiePlayerLoop, dif_neg (by omega)]
      | succ f2' =>
          simp only [zombiePlayerLoop]
          by_cases hk : k < zs.length
          · rw [dif_pos hk, dif_pos hk]
            split_ifs with hatk hexp
            · apply ih <;>
                (rw [List.length_eraseIdx_of_lt
                    (by rw [length_handleExploderDeath, List.length_set]; exact hk),
                  length_handleExploderDeath, List.length_set]; omega)
            · apply ih <;> rw [List.length_set] <;> omega
            · apply ih <;> omega
          · rw [dif_neg hk, dif_neg hk]

/-- `Game.checkCollisions`: the bullet-vs-zombie pass followed by the
zombie-vs-player pass, the latter skipped entirely while the player is
invulnerable.  There is no bullet-vs-player test anywhere. -/
def checkCollisions (now : ℚ) (p : Player) (isDead : Bool) (bullets : List Bullet)
    (zombies : List Zombie) (zombiesKilled explosions : ℕ) : CollisionsResult :=
  let r := bulletsVsZombies now bullets p isDead zombies zombiesKilled explosions
  if r.player.invulnerableTime ≤ 0 then
    let c := zombiePlayerLoop now r.zombies.length 0 r.player r.isDead r.zombies
      r.explosions
    { bullets := r.bullets, player := c.1, isDead := c.2.1, zombies := c.2.2.1,
      zombiesKilled := r.zombiesKilled, explosions := c.2.2.2 }
  else r

/-! ### Zombie update (game.ts) -/

/-- `Game.zombieSpitterAttack`: a slowed projectile from the zombie's
position toward the target, carrying the zombie's damage, pushed into the
shared bullet list.  `atan2F` stands for `Math.atan2` (see header). -/
def zombieSpitterAttack (cosF sinF : ℚ → ℚ) (atan2F : ℚ → ℚ → ℚ) (z : Zombie)
    (targetX targetY currentTime : ℚ) (bullets : List Bullet) : List Bullet :=
  let angle := atan2F (targetY - z.y) (targetX - z.x)
  let b := createBullet cosF sinF z.x z.y angle currentTime
  let b' := { b with damage := z.damage,
                     velocityX := b.velocityX * (1/2),
                     velocityY := b.velocityY * (1/2) }
  bullets ++ [b']

structure UpdateZombiesResult where
  zombies : List Zombie
  player : Player
  isDead : Bool
  bullets : List Bullet
deriving DecidableEq, Repr

/-- Spit-due test of `Game.updateZombies`: `lastSpitTime === undefined` or
the cooldown (default 2500) elapsed. -/
def spitDue (z : Zombie) (now : ℚ) : Bool :=
  match z.lastSpitTime with
  | none => true
  | some t => decide (jsOr z.spitCooldown 2500 < now - t)

/-- Loop body of `Game.updateZombies` (the source iterates from the highest
index downward, so the tail is processed first): advance the AI, let a
spitter whose cooldown elapsed fire at the player's centre, and cull a
zombie past the bottom boundary, charging the player 5 leak damage.  Blood
particle aging is visual only and omitted. -/
def updateZombiesLoop (cosF sinF : ℚ → ℚ) (atan2F : ℚ → ℚ → ℚ)
    (now playerCenterX playerCenterY : ℚ) :
    List Zombie → Player → Bool → List Bullet → UpdateZombiesResult
  | [], p, isDead, bullets =>
    { zombies := [], player := p, isDead := isDead, bullets := bullets }
  | z :: rest, p, isDead, bullets =>
    let r := updateZombiesLoop cosF sinF atan2F now playerCenterX playerCenterY
      rest p isDead bullets
    let z1 := updateZombieAI z
    let sp :=
      if z1.type = ZombieType.spitter && spitDue z1 now then
        ({ z1 with lastSpitTime := some now },
         zombieSpitterAttack cosF sinF atan2F z1 playerCenterX playerCenterY now
           r.bullets)
      else (z1, r.bullets)
    if CANVAS_HEIGHT + sp.1.radius < sp.1.y then
      let pr := damagePlayer r.player r.isDead 5
      { zombies := r.zombies, player := pr.1, isDead := pr.2, bullets := sp.2 }
    else
      { zombies := sp.1 :: r.zombies, player := r.player, isDead := r.isDead,
        bullets := sp.2 }

/-- `Game.updateZombies`: the player's centre is read once, before the loop. -/
def updateZombies (cosF sinF : ℚ → ℚ) (atan2F : ℚ → ℚ → ℚ) (now : ℚ)
    (p : Player) (isDead : Bool) (zombies : List Zombie) (bullets : List Bullet) :
    UpdateZombiesResult :=
  updateZombiesLoop cosF sinF atan2F now (p.x + p.width / 2) (p.y + p.height / 2)
    zombies p isDead bullets

/-! ### Sample entities for witnesses and counterexamples -/

/-- A player as created by `createPlayer` (entities.ts). -/
def samplePlayer : Player :=
  { x := CANVAS_WIDTH / 2 - PLAYER_WIDTH / 2, y := CANVAS_HEIGHT - PLAYER_HEIGHT - 20,
    width := PLAYER_WIDTH, height := PLAYER_HEIGHT,
    health := PLAYER_MAX_HEALTH, maxHealth := PLAYER_MAX_HEALTH,
    speed := PLAYER_SPEED, velocityX := 0, velocityY := 0, rotation := 0,
    isShooting := false, lastShootTime := 0, shootInterval := PLAYER_SHOOT_INTERVAL,
    active := true, damageFlashTime := 0, invulnerableTime := 0,
    shooterCount := INITIAL_SHOOTER_COUNT, currentLane := 0 }

/-- The player during its post-hit invulnerability window. -/
def invulnPlayer : Player := { samplePlayer with invulnerableTime := 1000 }

/-- A standard-type zombie (stats from `ZOMBIE_CONFIGS.standard`). -/
def sampleStandardZombie : Zombie :=
  { x := 100, y := 100, width := 36, height := 36, type := ZombieType.standard,
    health := 60, maxHealth := 60, speed := 12/10, damage := 10, radius := 18,
    velocityX := 0, velocityY := 0, lastAttackTime := 0, attackCooldown := 1000,
    active := true }

/-- An exploder-type zombie (stats from `ZOMBIE_CONFIGS.exploder`). -/
def sampleExploderZombie : Zombie :=
  { x := 0, y := 0, width := 40, height := 40, type := ZombieType.exploder,
    health := 40, maxHealth := 40, speed := 2, damage := 35, radius := 20,
    velocityX := 0, velocityY := 0, lastAttackTime := 0, attackCooldown := 500,
    explosionRadius := some 100, active := true }

/-- A spitter-type zombie (stats from `ZOMBIE_CONFIGS.spitter`). -/
def sampleSpitterZombie : Zombie :=
  { x := 100, y := 100, width := 32, height := 32, type := ZombieType.spitter,
    health := 45, maxHealth := 45, speed := 9/10, damage := 12, radius := 16,
    velocityX := 0, velocityY := 0, lastAttackTime := 0, attackCooldown := 2000,
    spitCooldown := some 2500, lastSpitTime := some 0, active := true }

/-- The game's spawn-weight table, in the enumeration order of
`ZOMBIE_CONFIGS` (constants.ts). -/
def zombieWeights : List (String × ℚ) :=
  [("standard", 50), ("runner", 25), ("tank", 10), ("spitter", 10), ("exploder", 5)]

/-! ### C9: three 20-damage hits on a 60-health zombie -/

/-- C9: damaging a zombie with health 60 by 20 three successive times yields
health 40, then 20, then exactly 0, with `died = false` on the first two
calls and `died = true` only on the third. -/
theorem damageZombie_three_hits (z : Zombie) (t1 t2 t3 : ℚ) (h : z.health = 60) :
    (damageZombie z 20 t1).1.health = 40 ∧
    (damageZombie z 20 t1).2 = false ∧
    (damageZombie (damageZombie z 20 t1).1 20 t2).1.health = 20 ∧
    (damageZombie (damageZombie z 20 t1).1 20 t2).2 = false ∧
    (damageZombie (damageZombie (damageZombie z 20 t1).1 20 t2).1 20 t3).1.health = 0 ∧
    (damageZombie (damageZombie (damageZombie z 20 t1).1 20 t2).1 20 t3).2 = true := by
  simp only [damageZombie, h]
  norm_num

/-- C9 witness: the three hits evaluated on a concrete standard zombie. -/
theorem damageZombie_three_hits_witness :
    (damageZombie sampleStandardZombie 20 1).1.health = 40 ∧
    (damageZombie sampleStandardZombie 20 1).2 = false ∧
    (damageZombie (damageZombie sampleStandardZombie 20 1).1 20 2).1.health = 20 ∧
    (damageZombie (damageZombie sampleStandardZombie 20 1).1 20 2).2 = false ∧
    (damageZombie (damageZombie (damageZombie sampleStandardZombie 20 1).1 20 2).1 20 3).1.health = 0 ∧
    (damageZombie (damageZombie (damageZombie sampleStandardZombie 20 1).1 20 2).1 20 3).2 = true :=
  damageZombie_three_hits sampleStandardZombie 1 2 3 (by decide)

/-! ### C2: shooterCount stays in [1, 50] -/

theorem gateStep_shooterCount_bounds (p : Player) (g : Gate) (hg : validGateValue g)
    (h1 : 1 ≤ p.shooterCount) (h2 : p.shooterCount ≤ 50) :
    1 ≤ (gateStep p g).1.shooterCount ∧ (gateStep p g).1.shooterCount ≤ 50 := by
  obtain ⟨ha, hm⟩ := hg
  obtain ⟨gx, gy, gw, gh, glane, gtype, gvalue, gactive, gpassed⟩ := g
  unfold gateStep
  split
  · exact ⟨h1, h2⟩
  · split
    · cases gtype with
      | add =>
          obtain ⟨hv1, hv2⟩ := ha rfl
          have hv1' : (1 : ℤ) ≤ gvalue := hv1
          refine ⟨le_min ?_ (by norm_num), min_le_right _ _⟩
          show (1 : ℤ) ≤ p.shooterCount + gvalue
          linarith
      | multiply =>
          obtain ⟨hv1, hv2⟩ := hm rfl
          have hv1' : (2 : ℤ) ≤ gvalue := hv1
          refine ⟨le_min ?_ (by norm_num), min_le_right _ _⟩
          show (1 : ℤ) ≤ p.shooterCount * gvalue
          nlinarith
    · exact ⟨h1, h2⟩

/-- C2: starting from the initial shooter count 1, every sequence of gate
crossings (additive +1..+3 or multiplicative x2..x3, each followed by the cap
at 50) leaves `shooterCount` in [1, 50]. -/
theorem checkGateCollisions_shooterCount_bounds :
    (1 ≤ INITIAL_SHOOTER_COUNT ∧ INITIAL_SHOOTER_COUNT ≤ 50) ∧
    ∀ (gates : List Gate) (p : Player), (∀ g ∈ gates, validGateValue g) →
      1 ≤ p.shooterCount → p.shooterCount ≤ 50 →
      1 ≤ (checkGateCollisions p gates).1.shooterCount ∧
        (checkGateCollisions p gates).1.shooterCount ≤ 50 := by
  refine ⟨by decide, ?_⟩
  intro gates
  induction gates with
  | nil => intro p _ h1 h2; exact ⟨h1, h2⟩
  | cons g rest ih =>
      intro p hv h1 h2
      obtain ⟨hs1, hs2⟩ := gateStep_shooterCount_bounds p g (hv g (by simp))
        h1 h2
      exact ih (gateStep p g).1 (fun g' hg' => hv g' (by simp [hg'])) hs1 hs2

/-- C2 witness: a concrete crossing sequence (+3 then x3 then x3 then +2)
from the initial count 1 lands at 21, inside [1, 50]. -/
theorem checkGateCollisions_shooterCount_bounds_witness :
    1 ≤ (checkGateCollisions { samplePlayer with shooterCount := INITIAL_SHOOTER_COUNT }
        [ { x := samplePlayer.x, y := samplePlayer.y, width := 320, height := 60,
            lane := 0, type := GateType.add, value := 3, active := true, passed := false },
          { x := samplePlayer.x, y := samplePlayer.y, width := 320, height := 60,
            lane := 0, type := GateType.multiply, value := 3, active := true, passed := false },
          { x := samplePlayer.x, y := samplePlayer.y, width := 320, height := 60,
            lane := 1, type := GateType.multiply, value := 3, active := true, passed := false },
          { x := samplePlayer.x, y := samplePlayer.y, width := 320, height := 60,
            lane := 1, type := GateType.add, value := 2, active := true, passed := false } ]).1.shooterCount ∧
    (checkGateCollisions { samplePlayer with shooterCount := INITIAL_SHOOTER_COUNT }
        [ { x := samplePlayer.x, y := samplePlayer.y, width := 320, height := 60,
            lane := 0, type := GateType.add, value := 3, active := true, passed := false },
          { x := samplePlayer.x, y := samplePlayer.y, width := 320, height := 60,
            lane := 0, type := GateType.multiply, value := 3, active := true, passed := false },
          { x := samplePlayer.x, y := samplePlayer.y, width := 320, height := 60,
            lane := 1, type := GateType.multiply, value := 3, active := true, passed := false },
          { x := samplePlayer.x, y := samplePlayer.y, width := 320, height := 60,
            lane := 1, type := GateType.add, value := 2, active := true, passed := false } ]).1.shooterCount ≤ 50 :=
  checkGateCollisions_shooterCount_bounds.2 _ _ (by decide) (by decide) (by decide)

/-! ### C6: bullets per auto-shot -/

/-- C6 counterexample: with `shooterCount = 50` a single auto-shot creates
10 bullets, not 50 (the source caps the fan at 10). -/
theorem shootBullet_fifty_counterexample :
    ({ samplePlayer with shooterCount := 50 } : Player).shooterCount = 50 ∧
    (shootBullet (fun _ => 1) (fun _ => 0) 3 { samplePlayer with shooterCount := 50 }
      [] 0).length = 10 ∧ (10 : ℤ) ≠ 50 := by
  refine ⟨by decide, ?_, by decide⟩
  unfold shootBullet
  rw [List.length_append, List.length_map, List.length_range]
  decide

/-- C6 amended: every auto-shot appends exactly `min shooterCount 10`
bullets (the fan is capped at 10, not at the 50 cap of `shooterCount`). -/
theorem shootBullet_count (cosF sinF : ℚ → ℚ) (piF : ℚ) (p : Player)
    (bullets : List Bullet) (currentTime : ℚ) :
    (shootBullet cosF sinF piF p bullets currentTime).length =
      bullets.length + (min p.shooterCount 10).toNat := by
  unfold shootBullet
  rw [List.length_append, List.length_map, List.length_range]

/-! ### C8: weighted random type selection -/

theorem cumWeight_cons (x : String × ℚ) (xs : List (String × ℚ)) (k : ℕ) :
    cumWeight (x :: xs) (k + 1) = x.2 + cumWeight xs k := by
  simp [cumWeight]

theorem weightedLoop_spec :
    ∀ (ws : List (String × ℚ)) (r : ℚ), 0 ≤ r → r < totalWeight ws →
      ∃ i, ∃ h : i < ws.length,
        weightedLoop r ws = some (ws.get ⟨i, h⟩).1 ∧
        r ≤ cumWeight ws (i + 1) ∧ ∀ j, j < i → cumWeight ws (j + 1) < r := by
  intro ws
  induction ws with
  | nil =>
      intro r h0 h1
      simp [totalWeight] at h1
      linarith
  | cons x rest ih =>
      obtain ⟨t, w⟩ := x
      intro r h0 h1
      by_cases hw : r - w ≤ 0
      · refine ⟨0, by simp, by simp [weightedLoop, hw], ?_, by omega⟩
        rw [cumWeight_cons]
        simp only [cumWeight, List.take_zero, List.map_nil, List.sum_nil]
        linarith
      · push_neg at hw
        have h1' : r - w < totalWeight rest := by
          simp only [totalWeight, List.map_cons, List.sum_cons] at h1 ⊢
          linarith
        obtain ⟨i, hi, hloop, hcum, hprev⟩ := ih (r - w) (by linarith) h1'
        refine ⟨i + 1, by simpa using Nat.succ_lt_succ hi, ?_, ?_, ?_⟩
        · simpa [weightedLoop, not_le.mpr hw, le_of_lt] using hloop
        · rw [cumWeight_cons]
          linarith
        · intro j hj
          cases j with
          | zero =>
              rw [cumWeight_cons]
              simp only [cumWeight, List.take_zero, List.map_nil, List.sum_nil]
              linarith
          | succ j' =>
              rw [cumWeight_cons]
              have := hprev j' (by omega)
              linarith

/-- C8: for every weight table and draw `r` in `[0, totalWeight)`, the
selection returns the first type in enumeration order whose cumulative
weight is at least `r`; and whenever the subtraction loop exhausts the table
without the remainder dropping to `≤ 0`, the first enumerated type is
returned as the fallback. -/
theorem weightedRandomZombieType_correct (ws : List (String × ℚ)) (r : ℚ)
    (h0 : 0 ≤ r) (h1 : r < totalWeight ws) :
    (∃ i, ∃ h : i < ws.length,
      weightedRandomZombieType ws r = (ws.get ⟨i, h⟩).1 ∧
      r ≤ cumWeight ws (i + 1) ∧ ∀ j, j < i → cumWeight ws (j + 1) < r) ∧
    (∀ (ws' : List (String × ℚ)) (r' : ℚ), weightedLoop r' ws' = none →
      weightedRandomZombieType ws' r' = (ws'.map Prod.fst).headD "") := by
  constructor
  · obtain ⟨i, hi, hl, hc, hp⟩ := weightedLoop_spec ws r h0 h1
    exact ⟨i, hi, by simp [weightedRandomZombieType, hl], hc, hp⟩
  · intro ws' r' hn
    simp [weightedRandomZombieType, hn]

/-- C8 witness: on the game's weight table with draw 60, the selection
lands on the second type, "runner" (cumulative weights 50, 75, ...). -/
theorem weightedRandomZombieType_correct_witness :
    (∃ i, ∃ h : i < zombieWeights.length,
      weightedRandomZombieType zombieWeights 60 = (zombieWeights.get ⟨i, h⟩).1 ∧
      60 ≤ cumWeight zombieWeights (i + 1) ∧
      ∀ j, j < i → cumWeight zombieWeights (j + 1) < 60) ∧
    (∀ (ws' : List (String × ℚ)) (r' : ℚ), weightedLoop r' ws' = none →
      weightedRandomZombieType ws' r' = (ws'.map Prod.fst).headD "") :=
  weightedRandomZombieType_correct zombieWeights 60 (by norm_num)
    (by norm_num [totalWeight, zombieWeights])

/-! ### C1: player health bounds -/

/-- C1 counterexample: a player at 30 health (below `maxHealth = 100`) hit
for 35 (an exploder contact) ends at health `-5`: damage is not clamped at
0, so health leaves `[0, maxHealth]`. -/
theorem damagePlayer_below_zero_counterexample :
    ({ samplePlayer with health := 30 } : Player).health = 30 ∧
    ({ samplePlayer with health := 30 } : Player).maxHealth = 100 ∧
    (damagePlayer { samplePlayer with health := 30 } false 35).1.health < 0 := by
  norm_num [damagePlayer, samplePlayer, PLAYER_MAX_HEALTH, PLAYER_INVULNERABLE_TIME]

/-- C1 amended: health never exceeds `maxHealth` (damage only lowers it, the
wave-completion heal is capped at `maxHealth` and never lowers health below
0, and respawn restores exactly `maxHealth`), but damage is not clamped
below: while not invulnerable a hit leaves exactly `health - damage`, which
is negative whenever the damage exceeds the remaining health (the death
transition then triggers, without clamping). -/
theorem player_health_bounds (p : Player) (isDead : Bool) (d t : ℚ)
    (gs : GameState) (hd : 0 ≤ d) (hmax : p.health ≤ p.maxHealth) :
    (damagePlayer p isDead d).1.health ≤ p.maxHealth ∧
    (completeWave gs p t).2.health ≤ p.maxHealth ∧
    (0 ≤ p.health → 0 ≤ (completeWave gs p t).2.health) ∧
    (respawnPlayer p gs).1.health = p.maxHealth ∧
    (0 < p.invulnerableTime → (damagePlayer p isDead d).1.health = p.health) ∧
    (p.invulnerableTime ≤ 0 → (damagePlayer p isDead d).1.health = p.health - d) := by
  refine ⟨?_, ?_, ?_, rfl, ?_, ?_⟩
  · unfold damagePlayer
    by_cases hi : 0 < p.invulnerableTime
    · rw [if_pos hi]
      exact hmax
    · rw [if_neg hi]
      dsimp only
      split_ifs <;> (show p.health - d ≤ p.maxHealth; linarith)
  · simp [completeWave, min_le_right]
  · intro h0
    simp only [completeWave]
    exact le_min (by linarith) (by linarith)
  · intro hi
    simp [damagePlayer, hi]
  · intro hi
    unfold damagePlayer
    rw [if_neg (not_lt.mpr hi)]
    dsimp only
    split_ifs <;> rfl

/-- C1 witness: the amended bounds evaluated at the freshly created player
hit for 35. -/
theorem player_health_bounds_witness :
    (damagePlayer samplePlayer false 35).1.health ≤ samplePlayer.maxHealth ∧
    (completeWave
      { isPlaying := true, isPaused := false, currentWave := 1, zombiesKilled := 0,
        zombiesInWave := 10, zombiesSpawned := 10, waveStartTime := 0,
        waveActive := true, explorationMode := false, currentLevel := 1 }
      samplePlayer 0).2.health ≤ samplePlayer.maxHealth ∧
    (0 ≤ samplePlayer.health → 0 ≤ (completeWave
      { isPlaying := true, isPaused := false, currentWave := 1, zombiesKilled := 0,
        zombiesInWave := 10, zombiesSpawned := 10, waveStartTime := 0,
        waveActive := true, explorationMode := false, currentLevel := 1 }
      samplePlayer 0).2.health) ∧
    (respawnPlayer samplePlayer
      { isPlaying := true, isPaused := false, currentWave := 1, zombiesKilled := 0,
        zombiesInWave := 10, zombiesSpawned := 10, waveStartTime := 0,
        waveActive := true, explorationMode := false, currentLevel := 1 }).1.health =
      samplePlayer.maxHealth ∧
    (0 < samplePlayer.invulnerableTime →
      (damagePlayer samplePlayer false 35).1.health = samplePlayer.health) ∧
    (samplePlayer.invulnerableTime ≤ 0 →
      (damagePlayer samplePlayer false 35).1.health = samplePlayer.health - 35) :=
  player_health_bounds samplePlayer false 35 0 _ (by norm_num)
    (by norm_num [samplePlayer, PLAYER_MAX_HEALTH])

/-! ### C7: invulnerability blocks every damage source -/

theorem damagePlayer_invulnerable (p : Player) (isDead : Bool) (d : ℚ)
    (h : 0 < p.invulnerableTime) : damagePlayer p isDead d = (p, isDead) := by
  simp [damagePlayer, h]

theorem handleExploderDeath_player_invulnerable (z : Zombie) (i : ℕ) (p : Player)
    (isDead : Bool) (zs : List Zombie) (e : ℕ) (t : ℚ)
    (h : 0 < p.invulnerableTime) :
    (handleExploderDeath z i p isDead zs e t).player = p := by
  unfold handleExploderDeath
  dsimp only
  split
  · simp [damagePlayer_invulnerable p isDead z.damage h]
  · rfl

theorem handleZombieDeath_player_invulnerable (z : Zombie) (i : ℕ) (p : Player)
    (isDead : Bool) (zs : List Zombie) (e : ℕ) (t : ℚ)
    (h : 0 < p.invulnerableTime) :
    (handleZombieDeath z i p isDead zs e t).player = p := by
  unfold handleZombieDeath
  split
  · exact handleExploderDeath_player_invulnerable z i p isDead zs e t h
  · rfl

theorem bulletHitZombies_player_invulnerable (now : ℚ) (b : Bullet) (p : Player)
    (isDead : Bool) (zs : List Zombie) (k e : ℕ) (h : 0 < p.invulnerableTime) :
    (bulletHitZombies now b p isDead zs k e).player = p := by
  unfold bulletHitZombies
  cases lastCollidingIdx b zs with
  | none => rfl
  | some j =>
      simp only []
      split
      · exact handleZombieDeath_player_invulnerable _ j p isDead _ e now h
      · rfl

theorem bulletsVsZombies_player_invulnerable (now : ℚ) (bullets : List Bullet)
    (p : Player) (isDead : Bool) (zs : List Zombie) (k e : ℕ)
    (h : 0 < p.invulnerableTime) :
    (bulletsVsZombies now bullets p isDead zs k e).player = p := by
  induction bullets generalizing isDead zs k e with
  | nil => rfl
  | cons b rest ih =>
      have hr := ih isDead zs k e
      simp only [bulletsVsZombies, hr]
      exact bulletHitZombies_player_invulnerable now b p _ _ _ _ h

theorem updateZombiesLoop_player_invulnerable (cosF sinF : ℚ → ℚ)
    (atan2F : ℚ → ℚ → ℚ) (now cx cy : ℚ) (zs : List Zombie) (p : Player)
    (isDead : Bool) (bs : List Bullet) (h : 0 < p.invulnerableTime) :
    (updateZombiesLoop cosF sinF atan2F now cx cy zs p isDead bs).player = p := by
  induction zs generalizing isDead bs with
  | nil => rfl
  | cons z rest ih =>
      have hr := ih isDead bs
      have hd5 := damagePlayer_invulnerable p
        (updateZombiesLoop cosF sinF atan2F now cx cy rest p isDead bs).isDead 5 h
      simp only [updateZombiesLoop, hr, hd5]
      split <;> split <;> rfl

/-- C7: while the player's invulnerability timer is positive, every
zombie-inflicted damage source leaves the player unchanged: `damagePlayer`
itself (direct contact, the exploder contact blast and the explosion blast
all route through it), the whole collision phase (whose zombie-vs-player
loop is additionally skipped), and the escaped-zombie leak penalty inside
`updateZombies`. -/
theorem invulnerable_player_takes_no_damage (cosF sinF : ℚ → ℚ)
    (atan2F : ℚ → ℚ → ℚ) (now d : ℚ) (p : Player) (isDead : Bool)
    (bullets : List Bullet) (zombies : List Zombie) (zombiesKilled explosions : ℕ)
    (h : 0 < p.invulnerableTime) :
    (damagePlayer p isDead d).1 = p ∧
    (checkCollisions now p isDead bullets zombies zombiesKilled explosions).player = p ∧
    (updateZombies cosF sinF atan2F now p isDead zombies bullets).player = p := by
  refine ⟨by rw [damagePlayer_invulnerable p isDead d h], ?_, ?_⟩
  · have hb := bulletsVsZombies_player_invulnerable now bullets p isDead zombies
      zombiesKilled explosions h
    simp only [checkCollisions]
    rw [hb, if_neg (not_le.mpr h)]
    exact hb
  · exact updateZombiesLoop_player_invulnerable cosF sinF atan2F now _ _ zombies p
      isDead bullets h

/-- C7 witness: an invulnerable player (timer 1000) is untouched by a direct
hit of 35, by the collision phase against a zombie standing on top of it,
and by the zombie-update phase. -/
theorem invulnerable_player_takes_no_damage_witness :
    (damagePlayer invulnPlayer false 35).1 = invulnPlayer ∧
    (checkCollisions 0 invulnPlayer false [] [sampleStandardZombie] 0 0).player =
      invulnPlayer ∧
    (updateZombies (fun _ => 0) (fun _ => 0) (fun _ _ => 0) 0 invulnPlayer false
      [sampleStandardZombie] []).player = invulnPlayer :=
  invulnerable_player_takes_no_damage (fun _ => 0) (fun _ => 0) (fun _ _ => 0) 0 35
    invulnPlayer false [] [sampleStandardZombie] 0 0
    (by norm_num [invulnPlayer, samplePlayer])

/-! ### C3: Active to Resting wave transition -/

theorem updateWaveSystem_complete_case (gs : GameState) (p : Player) (now : ℚ)
    (h : gs.waveActive = true) (hq : gs.zombiesInWave ≤ gs.zombiesSpawned) :
    updateWaveSystem gs p [] now = completeWave gs p now := by
  have hr1 : (if (gs.waveActive && decide (gs.zombiesInWave ≤ gs.zombiesSpawned) &&
      decide (([] : List Zombie).length = 0)) = true then completeWave gs p now
      else (gs, p)) = completeWave gs p now := by
    rw [if_pos (by simp [h, hq])]
  unfold updateWaveSystem
  rw [hr1, if_neg ?hc]
  case hc =>
    dsimp only [completeWave]
    rw [sub_self]
    norm_num [WAVE_DELAY]

theorem updateWaveSystem_active_not_complete (gs : GameState) (p : Player)
    (zombies : List Zombie) (now : ℚ) (h : gs.waveActive = true)
    (hnc : ¬(gs.zombiesInWave ≤ gs.zombiesSpawned ∧ zombies = [])) :
    updateWaveSystem gs p zombies now = (gs, p) := by
  have hr1 : (if (gs.waveActive && decide (gs.zombiesInWave ≤ gs.zombiesSpawned) &&
      decide (zombies.length = 0)) = true then completeWave gs p now
      else (gs, p)) = (gs, p) := by
    rw [if_neg ?hc1]
    case hc1 =>
      simp only [h, Bool.true_and, Bool.and_eq_true, decide_eq_true_eq, not_and]
      intro hq hz
      exact hnc ⟨hq, List.length_eq_zero.mp hz⟩
  unfold updateWaveSystem
  rw [hr1, if_neg (by simp [h])]

/-- Helper for the reachability invariant behind C3: the spawner never takes
`zombiesSpawned` past `zombiesInWave`, and a new wave resets it to 0. -/
theorem zombiesSpawned_le_zombiesInWave_invariant (gs : GameState)
    (zs : List Zombie) (now last : ℚ) (z : Zombie)
    (h : gs.zombiesSpawned ≤ gs.zombiesInWave) :
    (updateZombieSpawning gs zs now last z).1.zombiesSpawned ≤
      (updateZombieSpawning gs zs now last z).1.zombiesInWave ∧
    (startNextWave gs now).zombiesSpawned ≤ (startNextWave gs now).zombiesInWave := by
  constructor
  · unfold updateZombieSpawning
    split
    · exact h
    split
    next hc =>
      simp only [Bool.and_eq_true, decide_eq_true_eq] at hc
      show gs.zombiesSpawned + 1 ≤ gs.zombiesInWave
      omega
    · exact h
  · show 0 ≤ BASE_ZOMBIES_PER_WAVE + (gs.currentWave + 1 - 1) * WAVE_ZOMBIE_INCREASE
    omega

/-- C3: with the reachability invariant `zombiesSpawned ≤ zombiesInWave`, a
tick of the wave system moves an active wave to Resting exactly when
`zombiesSpawned = zombiesInWave` and the live zombie collection is empty,
and that transition heals the player by exactly 20, capped at `maxHealth`. -/
theorem updateWaveSystem_wave_transition (gs : GameState) (p : Player)
    (zombies : List Zombie) (now : ℚ)
    (hinv : gs.zombiesSpawned ≤ gs.zombiesInWave) :
    ((gs.waveActive = true ∧
        (updateWaveSystem gs p zombies now).1.waveActive = false) ↔
      (gs.waveActive = true ∧ gs.zombiesSpawned = gs.zombiesInWave ∧ zombies = [])) ∧
    ((gs.waveActive = true ∧ gs.zombiesSpawned = gs.zombiesInWave ∧ zombies = []) →
      (updateWaveSystem gs p zombies now).2.health = min (p.health + 20) p.maxHealth) := by
  constructor
  · constructor
    · rintro ⟨ha, hres⟩
      by_cases hq : gs.zombiesInWave ≤ gs.zombiesSpawned
      · by_cases hz : zombies = []
        · exact ⟨ha, by omega, hz⟩
        · rw [updateWaveSystem_active_not_complete gs p zombies now ha
            (fun hc => hz hc.2)] at hres
          rw [ha] at hres
          exact absurd hres (by simp)
      · rw [updateWaveSystem_active_not_complete gs p zombies now ha
          (fun hc => hq hc.1)] at hres
        rw [ha] at hres
        exact absurd hres (by simp)
    · rintro ⟨ha, hq, hz⟩
      subst hz
      rw [updateWaveSystem_complete_case gs p now ha (le_of_eq hq.symm)]
      exact ⟨ha, by simp [completeWave]⟩
  · rintro ⟨ha, hq, hz⟩
    subst hz
    rw [updateWaveSystem_complete_case gs p now ha (le_of_eq hq.symm)]
    simp [completeWave]

/-- A game state with its wave quota fully spawned, used by the C3 witness. -/
def waveReadyState : GameState :=
  { isPlaying := true, isPaused := false, currentWave := 1, zombiesKilled := 10,
    zombiesInWave := 10, zombiesSpawned := 10, waveStartTime := 0,
    waveActive := true, explorationMode := false, currentLevel := 1 }

/-- C3 witness: the transition test evaluated at a concrete fully-spawned,
zombie-free state. -/
theorem updateWaveSystem_wave_transition_witness :
    ((waveReadyState.waveActive = true ∧
        (updateWaveSystem waveReadyState samplePlayer [] 1000).1.waveActive = false) ↔
      (waveReadyState.waveActive = true ∧
        waveReadyState.zombiesSpawned = waveReadyState.zombiesInWave ∧
        ([] : List Zombie) = [])) ∧
    ((waveReadyState.waveActive = true ∧
        waveReadyState.zombiesSpawned = waveReadyState.zombiesInWave ∧
        ([] : List Zombie) = []) →
      (updateWaveSystem waveReadyState samplePlayer [] 1000).2.health =
        min (samplePlayer.health + 20) samplePlayer.maxHealth) :=
  updateWaveSystem_wave_transition waveReadyState samplePlayer [] 1000 (by decide)

/-! ### C5: exploder splash damage -/

theorem explodeOthers_getD (zx zy er now : ℚ) (selfIdx : ℕ) :
    ∀ (j k : ℕ) (zs : List Zombie), k < zs.length →
      (explodeOthers zx zy er now selfIdx j zs).getD k default =
        (if j + k = selfIdx then zs.getD k default
         else if checkCircleCollision zx zy er (zs.getD k default).x
             (zs.getD k default).y (zs.getD k default).radius = true then
           (damageZombie (zs.getD k default) 50 now).1
         else zs.getD k default) := by
  intro j k zs
  induction zs generalizing j k with
  | nil => intro hk; simp at hk
  | cons z rest ih =>
      intro hk
      cases k with
      | zero => simp [explodeOthers]
      | succ k' =>
          have hk' : k' < rest.length := by simpa using hk
          have harith : j + 1 + k' = j + (k' + 1) := by omega
          have := ih (j + 1) k' hk'
          rw [harith] at this
          simpa [explodeOthers] using this

/-- The zombie-facing health clamp of `damageZombie`. -/
theorem damageZombie_health (z : Zombie) (d t : ℚ) :
    (damageZombie z d t).1.health = if z.health - d ≤ 0 then 0 else z.health - d := by
  unfold damageZombie
  dsimp only
  split_ifs <;> rfl

/-- A standard zombie at 40 health, 50px from the exploding zombie. -/
def weakZombie : Zombie := { sampleStandardZombie with x := 50, y := 0, health := 40 }

/-- C5 counterexample: when the other zombie has 40 health, the blast leaves
it at health 0 — it loses 40, not exactly 50 (damage is clamped at 0). -/
theorem exploder_splash_clamped_counterexample :
    weakZombie.health = 40 ∧
    (handleExploderDeath sampleExploderZombie 0 samplePlayer false
      [sampleExploderZombie, weakZombie] 0 7).zombies.getD 1 default =
      { weakZombie with health := 0, deathTime := some 7 } ∧
    weakZombie.health - ({ weakZombie with health := 0, deathTime := some 7 } : Zombie).health ≠ 50 := by
  refine ⟨by norm_num [weakZombie, sampleStandardZombie], ?_,
    by norm_num [weakZombie, sampleStandardZombie]⟩
  norm_num [handleExploderDeath, explodeOthers, damageZombie, checkCircleCollision,
    sqDist, jsOr, sampleExploderZombie, weakZombie, sampleStandardZombie]

/-- C5 amended: an exploder death creates exactly one explosion (so a
splash-killed exploder never re-explodes: every zombie other than the
exploding one is updated by at most one `damageZombie _ 50` application,
depending only on its own distance to the original blast), removes no
zombie from the list, and the splash damage is 50 clamped below at health 0
(a zombie with less than 50 health loses only its remaining health). -/
theorem handleExploderDeath_splash (z : Zombie) (selfIdx : ℕ) (p : Player)
    (isDead : Bool) (zs : List Zombie) (ex : ℕ) (now : ℚ) :
    (handleExploderDeath z selfIdx p isDead zs ex now).explosions = ex + 1 ∧
    (handleExploderDeath z selfIdx p isDead zs ex now).zombies.length = zs.length ∧
    (∀ k, k < zs.length → k ≠ selfIdx →
      (handleExploderDeath z selfIdx p isDead zs ex now).zombies.getD k default =
        (if checkCircleCollision z.x z.y (jsOr z.explosionRadius 100)
            (zs.getD k default).x (zs.getD k default).y
            (zs.getD k default).radius = true then
          (damageZombie (zs.getD k default) 50 now).1
        else zs.getD k default)) ∧
    (∀ oz : Zombie, (damageZombie oz 50 now).1.health =
      if oz.health - 50 ≤ 0 then 0 else oz.health - 50) := by
  refine ⟨rfl, length_handleExploderDeath z selfIdx p isDead zs ex now, ?_, ?_⟩
  · intro k hk hne
    have hh := explodeOthers_getD z.x z.y (jsOr z.explosionRadius 100) now selfIdx
      0 k zs hk
    rw [show (handleExploderDeath z selfIdx p isDead zs ex now).zombies =
      explodeOthers z.x z.y (jsOr z.explosionRadius 100) now selfIdx 0 zs from rfl]
    rw [hh, if_neg (by omega)]
  · intro oz
    exact damageZombie_health oz 50 now

/-- C5 witness: the amended splash rule evaluated on a full-health standard
zombie 50px from the exploder: it takes the full 50 damage. -/
theorem handleExploderDeath_splash_witness :
    (handleExploderDeath sampleExploderZombie 0 samplePlayer false
      [sampleExploderZombie, { sampleStandardZombie with x := 50, y := 0 }] 0 7).explosions = 1 ∧
    (handleExploderDeath sampleExploderZombie 0 samplePlayer false
      [sampleExploderZombie, { sampleStandardZombie with x := 50, y := 0 }] 0 7).zombies.length = 2 ∧
    (handleExploderDeath sampleExploderZombie 0 samplePlayer false
      [sampleExploderZombie, { sampleStandardZombie with x := 50, y := 0 }] 0 7).zombies.getD 1 default =
      (damageZombie { sampleStandardZombie with x := 50, y := 0 } 50 7).1 ∧
    (damageZombie { sampleStandardZombie with x := 50, y := 0 } 50 7).1.health = 10 := by
  obtain ⟨he, hl, hk, hc⟩ := handleExploderDeath_splash sampleExploderZombie 0
    samplePlayer false
    [sampleExploderZombie, { sampleStandardZombie with x := 50, y := 0 }] 0 7
  refine ⟨he, hl, ?_, ?_⟩
  · rw [hk 1 (by norm_num) (by norm_num)]
    rw [if_pos]
    · simp only [List.getD_cons_succ, List.getD_cons_zero]
    · simp only [List.getD_cons_succ, List.getD_cons_zero]
      norm_num [checkCircleCollision, sqDist, jsOr, sampleExploderZombie,
        sampleStandardZombie]
  · rw [hc { sampleStandardZombie with x := 50, y := 0 }]
    norm_num [sampleStandardZombie]

/-! ### C4: death handling exactly once -/

theorem lastCollidingIdx_lt (b : Bullet) :
    ∀ (zs : List Zombie) (j : ℕ), lastCollidingIdx b zs = some j → j < zs.length := by
  intro zs
  induction zs with
  | nil => intro j h; simp [lastCollidingIdx] at h
  | cons z rest ih =>
      intro j
      simp only [lastCollidingIdx]
      cases hrec : lastCollidingIdx b rest with
      | some j' =>
          intro h
          simp only [Option.some.injEq] at h
          subst h
          have := ih j' hrec
          simp only [List.length_cons]
          omega
      | none =>
          intro h
          split_ifs at h
          simp only [Option.some.injEq] at h
          subst h
          simp

theorem damageZombie_type (z : Zombie) (d t : ℚ) :
    (damageZombie z d t).1.type = z.type := by
  unfold damageZombie
  dsimp only
  split_ifs <;> rfl

theorem length_handleZombieDeath (z : Zombie) (i : ℕ) (p : Player) (isDead : Bool)
    (zs : List Zombie) (e : ℕ) (t : ℚ) :
    (handleZombieDeath z i p isDead zs e t).zombies.length = zs.length := by
  unfold handleZombieDeath
  split
  · exact length_handleExploderDeath z i p isDead zs e t
  · rfl

theorem handleZombieDeath_explosions (z : Zombie) (i : ℕ) (p : Player)
    (isDead : Bool) (zs : List Zombie) (e : ℕ) (t : ℚ) :
    (handleZombieDeath z i p isDead zs e t).explosions =
      if z.type = ZombieType.exploder then e + 1 else e := by
  unfold handleZombieDeath
  split_ifs <;> rfl

/-- An exploder already worn down to 20 health, so one bullet kills it. -/
def woundedExploder : Zombie := { sampleExploderZombie with health := 20 }

/-- A bullet as fired by the player, sitting on the wounded exploder. -/
def hitBullet : Bullet :=
  { x := 0, y := 0, width := 6, height := 12, velocityX := 0, velocityY := -10,
    damage := 20, lifetime := 2000, createdAt := 0, active := true }

/-- C4 counterexample: a bullet kills an exploder whose blast drops a 40
health bystander to exactly 0 — yet the bystander receives no death
handling: it stays in the live collection at health 0, the kill counter
counts only the exploder, and only the exploder's explosion fires. -/
theorem splash_kill_without_death_handling_counterexample :
    (checkCollisions 0 invulnPlayer false [hitBullet] [woundedExploder, weakZombie]
      0 0).zombies = [{ weakZombie with health := 0, deathTime := some 0 }] ∧
    (checkCollisions 0 invulnPlayer false [hitBullet] [woundedExploder, weakZombie]
      0 0).zombiesKilled = 1 ∧
    (checkCollisions 0 invulnPlayer false [hitBullet] [woundedExploder, weakZombie]
      0 0).explosions = 1 ∧
    (checkCollisions 0 invulnPlayer false [hitBullet] [woundedExploder, weakZombie]
      0 0).bullets = [] := by
  norm_num [checkCollisions, bulletsVsZombies, bulletHitZombies, lastCollidingIdx,
    handleZombieDeath, handleExploderDeath, explodeOthers, damageZombie,
    damagePlayer, checkRectCircleCollision, checkCircleCollision, sqDist, jsOr,
    hitBullet, woundedExploder, weakZombie, sampleExploderZombie,
    sampleStandardZombie, invulnPlayer, samplePlayer, CANVAS_WIDTH, CANVAS_HEIGHT,
    PLAYER_WIDTH, PLAYER_HEIGHT, PLAYER_MAX_HEALTH, PLAYER_SPEED,
    PLAYER_SHOOT_INTERVAL, INITIAL_SHOOTER_COUNT]

/-- C4 amended: a zombie killed by a bullet hit gets its death handling
exactly once — one kill-counter increment, removal of exactly that zombie,
and exactly one explosion iff it is an exploder — while a zombie whose
health reaches 0 from exploder splash gets none at that moment: the splash
(`handleExploderDeath`) never removes any zombie from the live collection. -/
theorem bullet_kill_death_handling (now : ℚ) (b : Bullet) (p : Player)
    (isDead : Bool) (zs : List Zombie) (killed ex j : ℕ)
    (hj : lastCollidingIdx b zs = some j)
    (hd : (damageZombie (zs.getD j default) b.damage now).2 = true) :
    (bulletHitZombies now b p isDead zs killed ex).zombiesKilled = killed + 1 ∧
    (bulletHitZombies now b p isDead zs killed ex).zombies.length = zs.length - 1 ∧
    (bulletHitZombies now b p isDead zs killed ex).explosions =
      (if (zs.getD j default).type = ZombieType.exploder then ex + 1 else ex) ∧
    (bulletHitZombies now b p isDead zs killed ex).bulletHit = true ∧
    (∀ (z' : Zombie) (i : ℕ) (p' : Player) (d' : Bool) (zs' : List Zombie)
      (e' : ℕ) (t' : ℚ),
      (handleExploderDeath z' i p' d' zs' e' t').zombies.length = zs'.length) := by
  have hjlt := lastCollidingIdx_lt b zs j hj
  unfold bulletHitZombies
  rw [hj]
  dsimp only
  rw [hd, if_pos rfl]
  refine ⟨rfl, ?_, ?_, rfl, ?_⟩
  · show ((handleZombieDeath (damageZombie (zs.getD j default) b.damage now).1
        j p isDead (zs.set j (damageZombie (zs.getD j default) b.damage now).1)
        ex now).zombies.eraseIdx j).length = zs.length - 1
    have h1 : (handleZombieDeath (damageZombie (zs.getD j default) b.damage now).1
        j p isDead (zs.set j (damageZombie (zs.getD j default) b.damage now).1)
        ex now).zombies.length = zs.length := by
      rw [length_handleZombieDeath, List.length_set]
    have h2 := List.length_eraseIdx_add_one
      (l := (handleZombieDeath (damageZombie (zs.getD j default) b.damage now).1
        j p isDead (zs.set j (damageZombie (zs.getD j default) b.damage now).1)
        ex now).zombies) (i := j) (by rw [h1]; exact hjlt)
    omega
  · show (handleZombieDeath (damageZombie (zs.getD j default) b.damage now).1
        j p isDead (zs.set j (damageZombie (zs.getD j default) b.damage now).1)
        ex now).explosions = _
    rw [handleZombieDeath_explosions, damageZombie_type]
  · intro z' i p' d' zs' e' t'
    exact length_handleExploderDeath z' i p' d' zs' e' t'

/-- C4 witness: the amended bullet-kill rule evaluated on the wounded
exploder scenario: one kill, one removal, one explosion. -/
theorem bullet_kill_death_handling_witness :
    (bulletHitZombies 0 hitBullet invulnPlayer false [woundedExploder, weakZombie]
      0 0).zombiesKilled = 0 + 1 ∧
    (bulletHitZombies 0 hitBullet invulnPlayer false [woundedExploder, weakZombie]
      0 0).zombies.length = ([woundedExploder, weakZombie] : List Zombie).length - 1 ∧
    (bulletHitZombies 0 hitBullet invulnPlayer false [woundedExploder, weakZombie]
      0 0).explosions =
      (if (([woundedExploder, weakZombie] : List Zombie).getD 0 default).type =
          ZombieType.exploder then 0 + 1 else 0) ∧
    (bulletHitZombies 0 hitBullet invulnPlayer false [woundedExploder, weakZombie]
      0 0).bulletHit = true ∧
    (∀ (z' : Zombie) (i : ℕ) (p' : Player) (d' : Bool) (zs' : List Zombie)
      (e' : ℕ) (t' : ℚ),
      (handleExploderDeath z' i p' d' zs' e' t').zombies.length = zs'.length) :=
  bullet_kill_death_handling 0 hitBullet invulnPlayer false
    [woundedExploder, weakZombie] 0 0 0
    (by norm_num [lastCollidingIdx, checkRectCircleCollision, sqDist, hitBullet,
      woundedExploder, weakZombie, sampleExploderZombie, sampleStandardZombie])
    (by norm_num [damageZombie, List.getD_cons_zero, hitBullet, woundedExploder,
      sampleExploderZombie])

/-! ### C10: spitter projectiles and the shared bullet collection -/

theorem bullet_at_center_overlaps (x y r : ℚ) (hr : 0 < r) :
    checkRectCircleCollision x y BULLET_WIDTH BULLET_HEIGHT x y r = true := by
  unfold checkRectCircleCollision
  have h1 : min x (x + BULLET_WIDTH) = x := min_eq_left (by norm_num [BULLET_WIDTH])
  have h2 : min y (y + BULLET_HEIGHT) = y := min_eq_left (by norm_num [BULLET_HEIGHT])
  dsimp only
  rw [h1, max_self, h2, max_self]
  simp only [sqDist, decide_eq_true_eq]
  have hz : (x - x) * (x - x) + (y - y) * (y - y) = 0 := by ring
  rw [hz]
  exact mul_pos hr hr

theorem lastCollidingIdx_some_of_mem (b : Bullet) (zs : List Zombie) (z : Zombie)
    (hz : z ∈ zs)
    (hc : checkRectCircleCollision b.x b.y b.width b.height z.x z.y z.radius = true) :
    ∃ j, lastCollidingIdx b zs = some j := by
  induction zs with
  | nil => cases hz
  | cons z0 rest ih =>
      cases hrec : lastCollidingIdx b rest with
      | some j => exact ⟨j + 1, by simp [lastCollidingIdx, hrec]⟩
      | none =>
          rcases List.mem_cons.mp hz with rfl | hz'
          · exact ⟨0, by simp [lastCollidingIdx, hrec, hc]⟩
          · obtain ⟨j, hj⟩ := ih hz'
            rw [hj] at hrec
            exact absurd hrec (by simp)

theorem bulletHitZombies_hits (now : ℚ) (b : Bullet) (p : Player) (isDead : Bool)
    (zs : List Zombie) (k e : ℕ)
    (h : ∃ z ∈ zs,
      checkRectCircleCollision b.x b.y b.width b.height z.x z.y z.radius = true) :
    (bulletHitZombies now b p isDead zs k e).bulletHit = true := by
  obtain ⟨z, hz, hc⟩ := h
  obtain ⟨j, hj⟩ := lastCollidingIdx_some_of_mem b zs z hz hc
  unfold bulletHitZombies
  rw [hj]
  dsimp only
  split <;> rfl

theorem zombiePlayerLoop_nil (now : ℚ) (fuel k : ℕ) (p : Player) (isDead : Bool)
    (e : ℕ) : zombiePlayerLoop now fuel k p isDead [] e = (p, isDead, [], e) := by
  cases fuel with
  | zero => rfl
  | succ fuel' => rw [zombiePlayerLoop, dif_neg (by simp)]

theorem bulletsVsZombies_nil_zombies (now : ℚ) (bs : List Bullet) (p : Player)
    (isDead : Bool) (k e : ℕ) :
    bulletsVsZombies now bs p isDead [] k e =
      { bullets := bs, player := p, isDead := isDead, zombies := [],
        zombiesKilled := k, explosions := e } := by
  induction bs with
  | nil => rfl
  | cons b rest ih =>
      simp only [bulletsVsZombies, ih]
      rfl

/-- C10 amended: a spitter projectile is created exactly at the spitter's
position and appended to the shared bullet collection; a projectile sitting
at the centre of a zombie with positive radius overlaps it, so whenever the
projectile still overlaps some live zombie at the collision pass (in
particular its own spitter, if it was not culled in the same tick) the
bullet pass registers a hit (damaging the first overlapping zombie in
iteration order and removing the bullet); and no bullet is ever tested
against the player: with no zombies alive, `checkCollisions` leaves the
player, the bullets and all counters untouched. -/
theorem spitter_projectile_behaviour (cosF sinF : ℚ → ℚ) (atan2F : ℚ → ℚ → ℚ)
    (z : Zombie) (tx ty now : ℚ) (bullets : List Bullet) :
    (∃ sb : Bullet,
      zombieSpitterAttack cosF sinF atan2F z tx ty now bullets = bullets ++ [sb] ∧
      sb.x = z.x ∧ sb.y = z.y ∧ sb.width = BULLET_WIDTH ∧
      sb.height = BULLET_HEIGHT ∧ sb.damage = z.damage ∧
      (0 < z.radius →
        checkRectCircleCollision sb.x sb.y sb.width sb.height z.x z.y z.radius = true)) ∧
    (∀ (now' : ℚ) (b : Bullet) (p : Player) (d : Bool) (zs : List Zombie) (k e : ℕ),
      (∃ z' ∈ zs,
        checkRectCircleCollision b.x b.y b.width b.height z'.x z'.y z'.radius = true) →
      (bulletHitZombies now' b p d zs k e).bulletHit = true) ∧
    (∀ (now' : ℚ) (p : Player) (d : Bool) (bs : List Bullet) (k e : ℕ),
      checkCollisions now' p d bs [] k e =
        { bullets := bs, player := p, isDead := d, zombies := [],
          zombiesKilled := k, explosions := e }) := by
  refine ⟨?_, bulletHitZombies_hits, ?_⟩
  · refine ⟨_, rfl, rfl, rfl, rfl, rfl, rfl, ?_⟩
    intro hr
    exact bullet_at_center_overlaps z.x z.y z.radius hr
  · intro now' p d bs k e
    unfold checkCollisions
    rw [bulletsVsZombies_nil_zombies]
    dsimp only
    split_ifs with hg
    · rw [zombiePlayerLoop_nil]
    · rfl

/-- C10 witness: the amended behaviour evaluated on a concrete spitter at
(100, 100): the projectile appears at (100, 100), overlaps the spitter, the
bullet pass registers the hit, and an empty zombie list leaves bullets and
player untouched. -/
theorem spitter_projectile_behaviour_witness :
    ((zombieSpitterAttack (fun _ => 0) (fun _ => 0) (fun _ _ => 0)
        sampleSpitterZombie 400 760 3000 []).map (fun b => (b.x, b.y)) =
      [(sampleSpitterZombie.x, sampleSpitterZombie.y)]) ∧
    (bulletHitZombies 3000
      ((zombieSpitterAttack (fun _ => 0) (fun _ => 0) (fun _ _ => 0)
        sampleSpitterZombie 400 760 3000 []).getD 0 hitBullet)
      samplePlayer false [sampleSpitterZombie] 0 0).bulletHit = true ∧
    checkCollisions 3000 samplePlayer false [hitBullet] [] 0 0 =
      { bullets := [hitBullet], player := samplePlayer, isDead := false,
        zombies := [], zombiesKilled := 0, explosions := 0 } := by
  obtain ⟨hb, hhits, hnozs⟩ := spitter_projectile_behaviour (fun _ => 0) (fun _ => 0)
    (fun _ _ => 0) sampleSpitterZombie 400 760 3000 []
  obtain ⟨sb, hsb, hx, hy, hw, hh, _, hov⟩ := hb
  refine ⟨?_, ?_, hnozs 3000 samplePlayer false [hitBullet] 0 0⟩
  · rw [hsb]
    simp [hx, hy]
  · rw [hsb]
    refine hhits 3000 _ samplePlayer false [sampleSpitterZombie] 0 0
      ⟨sampleSpitterZombie, by simp, ?_⟩
    simp only [List.nil_append, List.getD_cons_zero]
    exact hov (by norm_num [sampleSpitterZombie])

/-- A spitter standing exactly on the bottom boundary: one more step of its
AI takes it past `CANVAS_HEIGHT + radius` in the same tick in which its spit
cooldown elapses. -/
def escapingSpitter : Zombie := { sampleSpitterZombie with y := 816 }

/-- The projectile the escaping spitter leaves behind (trigonometry
instantiated with the constant-zero functions). -/
def escapeSpitBullet : Bullet :=
  { x := escapingSpitter.x, y := 816 + 9/10 * (7/10),
    width := BULLET_WIDTH, height := BULLET_HEIGHT,
    velocityX := 0 * BULLET_SPEED * (1/2), velocityY := 0 * BULLET_SPEED * (1/2),
    damage := escapingSpitter.damage, lifetime := BULLET_LIFETIME,
    createdAt := 3000, active := true }

/-- C10 counterexample: a spitter whose cooldown elapses in the tick it
escapes spits a projectile and is then culled; in that same tick's bullet
pass the projectile overlaps no live zombie and is not removed. -/
theorem spitter_escape_counterexample :
    (updateZombies (fun _ => 0) (fun _ => 0) (fun _ _ => 0) 3000 invulnPlayer false
      [escapingSpitter] []).zombies = [] ∧
    (updateZombies (fun _ => 0) (fun _ => 0) (fun _ _ => 0) 3000 invulnPlayer false
      [escapingSpitter] []).bullets.length = 1 ∧
    (checkCollisions 3000
      (updateZombies (fun _ => 0) (fun _ => 0) (fun _ _ => 0) 3000 invulnPlayer false
        [escapingSpitter] []).player
      (updateZombies (fun _ => 0) (fun _ => 0) (fun _ _ => 0) 3000 invulnPlayer false
        [escapingSpitter] []).isDead
      (updateZombies (fun _ => 0) (fun _ => 0) (fun _ _ => 0) 3000 invulnPlayer false
        [escapingSpitter] []).bullets
      (updateZombies (fun _ => 0) (fun _ => 0) (fun _ _ => 0) 3000 invulnPlayer false
        [escapingSpitter] []).zombies 0 0).bullets.length = 1 := by
  have hu : updateZombies (fun _ => 0) (fun _ => 0) (fun _ _ => 0) 3000 invulnPlayer
      false [escapingSpitter] [] =
      { zombies := [], player := invulnPlayer, isDead := false,
        bullets := [escapeSpitBullet] } := by
    norm_num [updateZombies, updateZombiesLoop, updateZombieAI, spitDue,
      zombieSpitterAttack, createBullet, damagePlayer, jsOr, escapeSpitBullet,
      escapingSpitter, sampleSpitterZombie, invulnPlayer, samplePlayer,
      CANVAS_HEIGHT, CANVAS_WIDTH, PLAYER_WIDTH, PLAYER_HEIGHT, BULLET_WIDTH,
      BULLET_HEIGHT, BULLET_SPEED, BULLET_DAMAGE, BULLET_LIFETIME]
  rw [hu]
  refine ⟨rfl, rfl, ?_⟩
  show (checkCollisions 3000 invulnPlayer false [escapeSpitBullet] [] 0 0).bullets.length = 1
  unfold checkCollisions
  rw [bulletsVsZombies_nil_zombies]
  dsimp only
  rw [if_neg (by norm_num [invulnPlayer, samplePlayer])]
  rfl

end ZombieGame

